import Mathlib

set_option maxRecDepth 100000

/-!
Verification of `temp_whatsapp_setup.py`.

The script consists of two module imports (`requests`, `json`) followed by
eleven `print` calls of string literals.  We embed it as a list of statements
in a small imperative language whose semantics threads an explicit state of
observable effects (standard output, standard error, network requests, file
reads/writes, environment mutations, standard-input reads, exit code).  The
language deliberately contains effectful constructs that the script does not
use, so that frame conditions ("no network I/O", "no stdin read", behaviour
invariance under arguments/environment/nondeterminism) are substantive
properties of this particular program rather than of the semantics.
-/

/-- Statements of the embedded language.  The script only uses `importMod`
and `print`; the remaining constructors model effects a Python script of this
shape could perform, so that their absence is provable. -/
inductive Stmt where
  | importMod (name : String)
  | print (s : String)
  | printArg (i : Nat)
  | printEnvVar (key : String)
  | printRandom
  | httpGet (url : String)
  | readFile (path : String)
  | writeFile (path : String) (content : String)
  | setEnv (key : String) (value : String)
  | readLine
deriving DecidableEq

/-- Invocation context of a run: command-line arguments, environment
variables, which modules are importable, and a nondeterminism oracle
(modelling e.g. a clock or random source a nondeterministic program could
consult). -/
structure Ctx where
  args : List String
  envVars : List (String × String)
  avail : String → Bool
  oracle : Nat → Nat

/-- Observable effect state of a run. -/
structure PState where
  out : String
  err : String
  netOps : List String
  fileReads : List String
  fileWrites : List (String × String)
  envWrites : List (String × String)
  stdinReads : Nat
  exitCode : Nat
deriving DecidableEq

/-- Initial effect state: nothing emitted, exit code 0. -/
def initPState : PState :=
  { out := "", err := "", netOps := [], fileReads := [], fileWrites := [],
    envWrites := [], stdinReads := 0, exitCode := 0 }

/-- Message a failed import writes to standard error (CPython aborts the
module with `ModuleNotFoundError` and exit status 1). -/
def moduleNotFoundMsg (m : String) : String :=
  "ModuleNotFoundError: No module named " ++ m ++ "\n"

/-- Effect of one statement on the observable state.  `print` emits its
argument followed by a newline, as Python `print` does; a failed import
records exit code 1 and the error text on standard error. -/
def applyStmt (ctx : Ctx) : Stmt → PState → PState
  | Stmt.importMod m, s =>
      if ctx.avail m then s
      else { s with exitCode := 1, err := s.err ++ moduleNotFoundMsg m }
  | Stmt.print str, s => { s with out := s.out ++ str ++ "\n" }
  | Stmt.printArg i, s => { s with out := s.out ++ ctx.args.getD i "" ++ "\n" }
  | Stmt.printEnvVar k, s =>
      { s with out := s.out ++ ((ctx.envVars.lookup k).getD "") ++ "\n" }
  | Stmt.printRandom, s => { s with out := s.out ++ toString (ctx.oracle 0) ++ "\n" }
  | Stmt.httpGet u, s => { s with netOps := s.netOps ++ [u] }
  | Stmt.readFile p, s => { s with fileReads := s.fileReads ++ [p] }
  | Stmt.writeFile p c, s => { s with fileWrites := s.fileWrites ++ [(p, c)] }
  | Stmt.setEnv k v, s => { s with envWrites := s.envWrites ++ [(k, v)] }
  | Stmt.readLine, s => { s with stdinReads := s.stdinReads + 1 }

/-- Whether a statement aborts the run: only a failed import does (Python
raises `ModuleNotFoundError` and the interpreter exits). -/
def stmtAborts (ctx : Ctx) : Stmt → Bool
  | Stmt.importMod m => !ctx.avail m
  | _ => false

/-- Big-step execution of a statement list: each statement records its effect
and execution continues, except that a failed import stops the run
immediately. -/
def exec (ctx : Ctx) : List Stmt → PState → PState
  | [], s => s
  | st :: rest, s =>
      if stmtAborts ctx st then applyStmt ctx st s
      else exec ctx rest (applyStmt ctx st s)

/-- The script `temp_whatsapp_setup.py`, statement by statement: two imports
followed by eleven prints, with the embedded `\n` escapes of the source
literals kept verbatim. -/
def program : List Stmt :=
  [ Stmt.importMod "requests",
    Stmt.importMod "json",
    Stmt.print "=== WhatsApp Business API Quick Setup ===",
    Stmt.print "\n1. Go to: https://developers.facebook.com/apps",
    Stmt.print "2. Click on your WhatsApp app",
    Stmt.print "3. Go to: WhatsApp > API Setup",
    Stmt.print "\n4. Copy these values:",
    Stmt.print "   - Temporary access token",
    Stmt.print "   - Phone number ID (select your +60142779902)",
    Stmt.print "   - Business Account ID",
    Stmt.print "\n5. Go to: Settings > Basic",
    Stmt.print "   - Copy App Secret",
    Stmt.print "\nPaste your credentials here when ready!" ]

/-- Running the script in a given invocation context. -/
def runProgram (args : List String) (envVars : List (String × String))
    (avail : String → Bool) (oracle : Nat → Nat) : PState :=
  exec { args := args, envVars := envVars, avail := avail, oracle := oracle }
    program initPState

/-- The literal text block of spec section 6, written from the spec text so
that the program output can be compared against it (the one spec-side
definition of this development). -/
def specSection6Text : String :=
  "=== WhatsApp Business API Quick Setup ===\n" ++
  "\n" ++
  "1. Go to: https://developers.facebook.com/apps\n" ++
  "2. Click on your WhatsApp app\n" ++
  "3. Go to: WhatsApp > API Setup\n" ++
  "\n" ++
  "4. Copy these values:\n" ++
  "   - Temporary access token\n" ++
  "   - Phone number ID (select your +60142779902)\n" ++
  "   - Business Account ID\n" ++
  "\n" ++
  "5. Go to: Settings > Basic\n" ++
  "   - Copy App Secret\n" ++
  "\n" ++
  "Paste your credentials here when ready!\n"

/-- Control status of the small-step machine. -/
inductive Status where
  | running
  | terminated
deriving DecidableEq

/-- Small-step machine state: the statements still to execute, the effect
state so far, and the control status. -/
structure MState where
  rest : List Stmt
  eff : PState
  status : Status
deriving DecidableEq

/-- Initial machine state: the whole script ahead, nothing emitted. -/
def initMState : MState :=
  { rest := program, eff := initPState, status := Status.running }

/-- One machine step: a terminated state is absorbing; with no statements
left the machine terminates; otherwise the head statement takes effect and
the machine either aborts (failed import) or advances to the next
statement. -/
def step (ctx : Ctx) (s : MState) : MState :=
  if s.status = Status.terminated then s
  else
    match s.rest with
    | [] => { s with status := Status.terminated }
    | st :: tl =>
        if stmtAborts ctx st then
          { rest := tl, eff := applyStmt ctx st s.eff, status := Status.terminated }
        else
          { rest := tl, eff := applyStmt ctx st s.eff, status := Status.running }

lemma step_reaches_terminated (ctx : Ctx) :
    ∀ (l : List Stmt) (s : MState), s.rest = l →
      ∃ n, ((step ctx)^[n] s).status = Status.terminated := by
  intro l
  induction l with
  | nil =>
    intro s hs
    by_cases h : s.status = Status.terminated
    · exact ⟨0, h⟩
    · refine ⟨1, ?_⟩
      simp [step, h, hs]
  | cons st tl ih =>
    intro s hs
    by_cases h : s.status = Status.terminated
    · exact ⟨0, h⟩
    · by_cases ha : stmtAborts ctx st = true
      · refine ⟨1, ?_⟩
        simp [step, h, hs, ha]
      · obtain ⟨n, hn⟩ :=
          ih { rest := tl, eff := applyStmt ctx st s.eff, status := Status.running } rfl
        refine ⟨n + 1, ?_⟩
        rw [Function.iterate_succ_apply]
        have hstep : step ctx s =
            { rest := tl, eff := applyStmt ctx st s.eff, status := Status.running } := by
          simp [step, h, hs, ha]
        rw [hstep]
        exact hn

/-- C1: run with no arguments, the program writes exactly the spec section 6
text block to standard output, in that order, and terminates normally
(exit code 0). -/
theorem c1_output_is_spec_block :
    (runProgram [] [] (fun _ => true) (fun _ => 0)).out = specSection6Text ∧
    (runProgram [] [] (fun _ => true) (fun _ => 0)).exitCode = 0 := by
  constructor <;> rfl

/-- C2: for every run, the side effects are confined to standard output: no
network request, no file read or write, no environment mutation is recorded,
even though the HTTP library `requests` is imported — it is never used (the
program contains its import but no HTTP operation). -/
theorem c2_effects_confined_to_stdout (args : List String)
    (envVars : List (String × String)) (avail : String → Bool)
    (oracle : Nat → Nat) :
    (runProgram args envVars avail oracle).netOps = [] ∧
    (runProgram args envVars avail oracle).fileReads = [] ∧
    (runProgram args envVars avail oracle).fileWrites = [] ∧
    (runProgram args envVars avail oracle).envWrites = [] ∧
    Stmt.importMod "requests" ∈ program ∧
    program.filter (fun st => match st with | Stmt.httpGet _ => true | _ => false) = [] := by
  cases h1 : avail "requests" <;> cases h2 : avail "json" <;>
    simp [runProgram, exec, program, initPState, applyStmt, stmtAborts, h1, h2]

/-- C3: under documented use (the imported modules are importable), every
invocation finishes with exit code 0 — no operation along the run fails. -/
theorem c3_exit_code_zero (args : List String)
    (envVars : List (String × String)) (avail : String → Bool)
    (oracle : Nat → Nat) (hreq : avail "requests" = true)
    (hjson : avail "json" = true) :
    (runProgram args envVars avail oracle).exitCode = 0 := by
  simp [runProgram, exec, program, initPState, applyStmt, stmtAborts, hreq, hjson]

theorem c3_exit_code_zero_witness :
    ((fun (_ : String) => true) "requests" = true) ∧
    (runProgram [] [] (fun _ => true) (fun _ => 0)).exitCode = 0 :=
  ⟨rfl, c3_exit_code_zero [] [] (fun _ => true) (fun _ => 0) rfl rfl⟩

/-- C4: the program is deterministic: two runs in the same invocation context
produce byte-identical standard output even if the nondeterminism oracle
(clock, randomness) differs between the runs, because the program never
consults it. -/
theorem c4_deterministic_output (args : List String)
    (envVars : List (String × String)) (avail : String → Bool)
    (o1 o2 : Nat → Nat) :
    (runProgram args envVars avail o1).out = (runProgram args envVars avail o2).out := by
  cases h1 : avail "requests" <;> cases h2 : avail "json" <;>
    simp [runProgram, exec, program, initPState, applyStmt, stmtAborts, h1, h2]

/-- C5: behaviour is invariant under the invocation input: two runs that
differ in command-line arguments and environment variables produce the same
observable result (output, error output and exit status alike). -/
theorem c5_invariant_under_args_env (args1 args2 : List String)
    (env1 env2 : List (String × String)) (avail : String → Bool)
    (oracle : Nat → Nat) :
    runProgram args1 env1 avail oracle = runProgram args2 env2 avail oracle := by
  cases h1 : avail "requests" <;> cases h2 : avail "json" <;>
    simp [runProgram, exec, program, initPState, applyStmt, stmtAborts, h1, h2]

/-- C6: under documented use (the imported modules are importable), the
program writes nothing to standard error. -/
theorem c6_no_stderr_output (args : List String)
    (envVars : List (String × String)) (avail : String → Bool)
    (oracle : Nat → Nat) (hreq : avail "requests" = true)
    (hjson : avail "json" = true) :
    (runProgram args envVars avail oracle).err = "" := by
  simp [runProgram, exec, program, initPState, applyStmt, stmtAborts, hreq, hjson]

theorem c6_no_stderr_output_witness :
    ((fun (_ : String) => true) "json" = true) ∧
    (runProgram [] [] (fun _ => true) (fun _ => 0)).err = "" :=
  ⟨rfl, c6_no_stderr_output [] [] (fun _ => true) (fun _ => 0) rfl rfl⟩

/-- C7: in every invocation context the machine reaches the terminated
status after finitely many steps of the single linear pass, and the
terminated state is absorbing (no branching back, no retries, no loops). -/
theorem c7_always_terminates (ctx : Ctx) :
    ∃ n, ((step ctx)^[n] initMState).status = Status.terminated ∧
      step ctx ((step ctx)^[n] initMState) = (step ctx)^[n] initMState := by
  obtain ⟨n, hn⟩ := step_reaches_terminated ctx program initMState rfl
  exact ⟨n, hn, by simp [step, hn]⟩

/-- C8: the two imports are the first two statements of the program, and if
importing `requests` or `json` fails the run produces no standard-output
content at all — no partial text block is ever emitted. -/
theorem c8_imports_before_output (args : List String)
    (envVars : List (String × String)) (avail : String → Bool)
    (oracle : Nat → Nat)
    (h : avail "requests" = false ∨ avail "json" = false) :
    program.take 2 = [Stmt.importMod "requests", Stmt.importMod "json"] ∧
    (runProgram args envVars avail oracle).out = "" := by
  refine ⟨by decide, ?_⟩
  rcases h with h | h
  · simp [runProgram, exec, program, initPState, applyStmt, stmtAborts, h]
  · cases h1 : avail "requests" <;>
      simp [runProgram, exec, program, initPState, applyStmt, stmtAborts, h, h1]

theorem c8_imports_before_output_witness :
    ((fun (_ : String) => false) "requests" = false ∨
      (fun (_ : String) => false) "json" = false) ∧
    (runProgram [] [] (fun _ => false) (fun _ => 0)).out = "" :=
  ⟨Or.inl rfl,
    (c8_imports_before_output [] [] (fun _ => false) (fun _ => 0) (Or.inl rfl)).2⟩

/-- C9: every `print` emission is terminated by a newline character, and the
complete standard output of the no-argument run ends with a trailing
newline. -/
theorem c9_trailing_newline :
    (∀ (ctx : Ctx) (str : String) (s : PState),
      (exec ctx [Stmt.print str] s).out = s.out ++ str ++ "\n") ∧
    (runProgram [] [] (fun _ => true) (fun _ => 0)).out.data.getLast? = some (Char.ofNat 10) := by
  refine ⟨fun ctx str s => rfl, ?_⟩
  rfl

/-- C10: the program never reads from standard input: no run records a
stdin read, and the program contains no read-line statement, so it cannot
block waiting for user input after printing. -/
theorem c10_no_stdin_read (args : List String)
    (envVars : List (String × String)) (avail : String → Bool)
    (oracle : Nat → Nat) :
    (runProgram args envVars avail oracle).stdinReads = 0 ∧
    Stmt.readLine ∉ program := by
  refine ⟨?_, by decide⟩
  cases h1 : avail "requests" <;> cases h2 : avail "json" <;>
    simp [runProgram, exec, program, initPState, applyStmt, stmtAborts, h1, h2]
